import Mathlib

/-!
Shallow embedding of the core domain logic of the retail back-office
repository (order-to-cash and fiscal ledger engine), together with proofs
of the specified properties.

Modelling conventions:
* Monetary amounts are modelled as exact rationals (`ℚ`); the specification
  itself mandates fixed-point decimal arithmetic for money, so the ideal
  rational semantics is the intended reading of the JavaScript numbers.
* Calendar dates are modelled at day granularity (the relevant columns are
  DATEONLY); a date is a `(year, month, day)` triple and `Data.toDays`
  converts it to a linear day number exactly as the millisecond arithmetic
  of the source behaves on midnight dates.
* A Sequelize instance method that mutates `this` and then persists with
  `save()` is embedded as a function from the old record to the new record;
  when the method throws before `save()`, the embedding returns the record
  as the method left it in memory (for methods that mutate nothing before
  throwing this is the unchanged record).
* Errors thrown by the source are represented as `Except String` values
  carrying the exact message strings of the source.
-/

namespace Spec2Proof

/-! ## Sale (Venda) state machine
Embedded from `Venda.prototype.atualizarStatus` in
`src/backend/src/models/Transportadora.js`.  Only the fields that the
method reads or writes are carried. -/

inductive StatusVenda where
  | pendente
  | aprovada
  | em_separacao
  | faturada
  | em_transporte
  | entregue
  | cancelada
deriving DecidableEq, Repr

structure Venda where
  status : StatusVenda
  data_entrega_realizada : Option Int
deriving DecidableEq, Repr

/-- The `statusValidos` transition table, row for row from the source. -/
def statusValidos : StatusVenda → List StatusVenda
  | .pendente => [.aprovada, .cancelada]
  | .aprovada => [.em_separacao, .cancelada]
  | .em_separacao => [.faturada, .cancelada]
  | .faturada => [.em_transporte, .entregue, .cancelada]
  | .em_transporte => [.entregue, .cancelada]
  | .entregue => []
  | .cancelada => []

/-- `Venda.prototype.atualizarStatus(novoStatus)`: throws unless the target
status is in the legal list of the current status; on success stores the
new status and, when it is `entregue`, stamps the delivery date (`hoje` is
the ambient current time `new Date()`). -/
def atualizarStatus (novoStatus : StatusVenda) (hoje : Int) (v : Venda) :
    Except String Venda :=
  if ¬ ((statusValidos v.status).contains novoStatus) then
    .error "Não é possível alterar o status"
  else
    .ok { v with
          status := novoStatus,
          data_entrega_realizada :=
            if novoStatus = .entregue then some hoje
            else v.data_entrega_realizada }

/-- `true` exactly on successful (`ok`) results. -/
def exceptOk {ε α : Type} : Except ε α → Bool
  | .ok _ => true
  | .error _ => false

/-- C1: the sale status transition succeeds exactly when the target is in
the legal set of the current state per the table
pending:{approved,cancelled}, approved:{picking,cancelled},
picking:{invoiced,cancelled}, invoiced:{shipping,delivered,cancelled},
shipping:{delivered,cancelled}, delivered:{}, cancelled:{}; otherwise it
raises.  In particular pending→delivered always raises, and any transition
attempted from delivered or cancelled always raises. -/
theorem venda_transicao_legal (v : Venda) (novo : StatusVenda) (hoje : Int) :
    (exceptOk (atualizarStatus novo hoje v) = (statusValidos v.status).contains novo)
    ∧ ((statusValidos v.status).contains novo = true ↔ novo ∈ statusValidos v.status)
    ∧ statusValidos .pendente = [.aprovada, .cancelada]
    ∧ statusValidos .aprovada = [.em_separacao, .cancelada]
    ∧ statusValidos .em_separacao = [.faturada, .cancelada]
    ∧ statusValidos .faturada = [.em_transporte, .entregue, .cancelada]
    ∧ statusValidos .em_transporte = [.entregue, .cancelada]
    ∧ statusValidos .entregue = []
    ∧ statusValidos .cancelada = []
    ∧ exceptOk (atualizarStatus .entregue hoje { v with status := .pendente }) = false
    ∧ exceptOk (atualizarStatus novo hoje { v with status := .entregue }) = false
    ∧ exceptOk (atualizarStatus novo hoje { v with status := .cancelada }) = false := by
  refine ⟨?_, ?_, rfl, rfl, rfl, rfl, rfl, rfl, rfl, ?_, ?_, ?_⟩
  · rcases v with ⟨s, dd⟩
    cases s <;> cases novo <;> rfl
  · exact List.elem_iff
  · rfl
  · cases novo <;> rfl
  · cases novo <;> rfl

/-! ## Fiscal documents (NotaFiscal)
Embedded from `NotaFiscal.prototype.gerarChaveAcesso` and
`NotaFiscal.prototype.cancelar` in `src/backend/src/models/NotaFiscal.js`.
The access key is a string of decimal digits in the source; it is embedded
as the list of its digit values, so a character of the key is a `Nat`
below 10 and the length of the list is the length of the string. -/

/-- A calendar date at day granularity (the DATEONLY columns of the
source, and the year/month part of the DATE columns). -/
structure Data where
  y : Nat
  m : Nat
  d : Nat
deriving DecidableEq, Repr

inductive StatusNota where
  | em_digitacao
  | pendente
  | processando
  | autorizada
  | cancelada
  | rejeitada
  | inutilizada
deriving DecidableEq, Repr

inductive TipoDocumento where
  | nfce
  | nfe
deriving DecidableEq, Repr

/-- Issuer configuration (`empresa`): region code and tax id.  The tax id
is a string of digits in the source, embedded as its digit values. -/
structure Empresa where
  codigo_uf : Nat
  cnpj : List Nat
deriving DecidableEq, Repr

structure NotaFiscal where
  tipo_documento : TipoDocumento
  serie : Nat
  numero : Nat
  data_emissao : Data
  status : StatusNota
  justificativa_cancelamento : Option String
deriving DecidableEq, Repr

/-- Decimal digits of `n`, most significant first: the embedding of
`n.toString()` for a nonnegative integer. -/
def natDigits (n : Nat) : List Nat :=
  if n = 0 then [0] else (Nat.digits 10 n).reverse

/-- `String.prototype.padStart(w, "0")`: left-pad with zeros up to width
`w`; a longer input is returned unchanged. -/
def padStart (w : Nat) (l : List Nat) : List Nat :=
  List.replicate (w - l.length) 0 ++ l

/-- The mod-11 weighted sum loop of `gerarChaveAcesso`: the digit list is
walked with a running weight that starts at 2, increments, and resets to 2
after 9; the list passed in is the base key reversed (the source walks
from the last character to the first). -/
def somaPesos : List Nat → Nat → Nat
  | [], _ => 0
  | d :: rest, peso => d * peso + somaPesos rest (if peso = 9 then 2 else peso + 1)

/-- `NotaFiscal.prototype.gerarChaveAcesso(empresa)`.  The 8-digit random
control number `cNF` is taken as an input; everything else follows the
source line by line (two-digit year and month from the ISO timestamp,
zero-padded fields, mod-11 check digit). -/
def gerarChaveAcesso (empresa : Empresa) (nf : NotaFiscal) (cNF : Nat) : List Nat :=
  let uf := padStart 2 (natDigits empresa.codigo_uf)
  let data := padStart 2 (natDigits (nf.data_emissao.y % 100)) ++
              padStart 2 (natDigits nf.data_emissao.m)
  let cnpj := padStart 14 empresa.cnpj
  let modelo := if nf.tipo_documento = .nfce then [6, 5] else [5, 5]
  let serie := padStart 3 (natDigits nf.serie)
  let numero := padStart 9 (natDigits nf.numero)
  let tpEmis := [1]
  let cNFd := padStart 8 (natDigits cNF)
  let baseChave := uf ++ data ++ cnpj ++ modelo ++ serie ++ numero ++ tpEmis ++ cNFd
  let soma := somaPesos baseChave.reverse 2
  let dv := 11 - soma % 11
  let digito := if dv = 10 ∨ dv = 11 then 0 else dv
  baseChave ++ [digito]

/-- The 43-character base laid out as the specification describes it:
region code (2), two-digit year and month (4), tax id (14), document type
code (2, 55 standard and 65 retail), series (3), number (9), emission-mode
flag (1), control number (8). -/
def chaveBaseSpec (empresa : Empresa) (nf : NotaFiscal) (cNF : Nat) : List Nat :=
  padStart 2 (natDigits empresa.codigo_uf) ++
  (padStart 2 (natDigits (nf.data_emissao.y % 100)) ++
   padStart 2 (natDigits nf.data_emissao.m)) ++
  padStart 14 empresa.cnpj ++
  (if nf.tipo_documento = .nfce then [6, 5] else [5, 5]) ++
  padStart 3 (natDigits nf.serie) ++
  padStart 9 (natDigits nf.numero) ++
  [1] ++
  padStart 8 (natDigits cNF)

/-- The weighted sum as the specification words it: position `i`, counted
from the last character, carries weight `2 + i % 8` (weights cycling
2,3,...,9). -/
def specSoma : Nat → List Nat → Nat
  | _, [] => 0
  | i, d :: rest => d * (2 + i % 8) + specSoma (i + 1) rest

/-- The check-digit rule as the specification words it: recompute the
weighted sum over the base from the last character to the first,
`dv = 11 − (sum mod 11)`, and a `dv` of 10 or 11 yields 0. -/
def specMod11CheckDigit (base : List Nat) : Nat :=
  let soma := specSoma 0 base.reverse
  let dv := 11 - soma % 11
  if dv = 10 ∨ dv = 11 then 0 else dv

lemma somaPesos_eq_specSoma (l : List Nat) (k : Nat) :
    somaPesos l (2 + k % 8) = specSoma k l := by
  induction l generalizing k with
  | nil => rfl
  | cons d rest ih =>
    have hstep : (if 2 + k % 8 = 9 then 2 else 2 + k % 8 + 1) = 2 + (k + 1) % 8 := by
      rcases Nat.lt_or_ge (k % 8) 7 with h | h
      · have h1 : (k + 1) % 8 = k % 8 + 1 := by omega
        rw [if_neg (by omega), h1]
        omega
      · have h7 : k % 8 = 7 := by omega
        have h1 : (k + 1) % 8 = 0 := by omega
        rw [h7, h1]
        rfl
    calc somaPesos (d :: rest) (2 + k % 8)
        = d * (2 + k % 8) + somaPesos rest (if 2 + k % 8 = 9 then 2 else 2 + k % 8 + 1) := rfl
      _ = d * (2 + k % 8) + somaPesos rest (2 + (k + 1) % 8) := by rw [hstep]
      _ = d * (2 + k % 8) + specSoma (k + 1) rest := by rw [ih]
      _ = specSoma k (d :: rest) := rfl

lemma natDigits_length_le {n w : Nat} (hw : 1 ≤ w) (h : n < 10 ^ w) :
    (natDigits n).length ≤ w := by
  unfold natDigits
  split
  · simpa using hw
  · next hn =>
    rw [List.length_reverse, Nat.digits_len 10 n (by norm_num) hn]
    have := Nat.log_lt_of_lt_pow hn h
    omega

lemma padStart_length {w : Nat} {l : List Nat} (h : l.length ≤ w) :
    (padStart w l).length = w := by
  simp [padStart]
  omega

/-- C2: for in-range inputs the generated access key is the 43-digit base
laid out as the spec describes followed by the spec check digit, and is
exactly 44 digits long. -/
theorem nf_chave_acesso_estrutura (e : Empresa) (nf : NotaFiscal) (cNF : Nat)
    (huf : e.codigo_uf < 100) (hcnpj : e.cnpj.length ≤ 14)
    (hm : nf.data_emissao.m ≤ 12) (hserie : nf.serie < 1000)
    (hnum : nf.numero < 10 ^ 9) (hcNF : cNF < 10 ^ 8) :
    (chaveBaseSpec e nf cNF).length = 43
    ∧ gerarChaveAcesso e nf cNF
        = chaveBaseSpec e nf cNF ++ [specMod11CheckDigit (chaveBaseSpec e nf cNF)]
    ∧ (gerarChaveAcesso e nf cNF).length = 44 := by
  have huf2 : (padStart 2 (natDigits e.codigo_uf)).length = 2 :=
    padStart_length (natDigits_length_le (by norm_num) (by simpa using huf))
  have hy2 : (padStart 2 (natDigits (nf.data_emissao.y % 100))).length = 2 :=
    padStart_length (natDigits_length_le (by norm_num)
      (by simpa using Nat.mod_lt _ (by norm_num : (0:ℕ) < 100)))
  have hm2 : (padStart 2 (natDigits nf.data_emissao.m)).length = 2 :=
    padStart_length (natDigits_length_le (by norm_num) (by simp; omega))
  have hc14 : (padStart 14 e.cnpj).length = 14 := padStart_length hcnpj
  have hmod2 : (if nf.tipo_documento = .nfce then [6, 5] else [5, 5]).length = 2 := by
    split <;> rfl
  have hs3 : (padStart 3 (natDigits nf.serie)).length = 3 :=
    padStart_length (natDigits_length_le (by norm_num) (by simpa using hserie))
  have hn9 : (padStart 9 (natDigits nf.numero)).length = 9 :=
    padStart_length (natDigits_length_le (by norm_num) hnum)
  have hc8 : (padStart 8 (natDigits cNF)).length = 8 :=
    padStart_length (natDigits_length_le (by norm_num) hcNF)
  have hbase : (chaveBaseSpec e nf cNF).length = 43 := by
    simp [chaveBaseSpec, huf2, hy2, hm2, hc14, hmod2, hs3, hn9, hc8]
  have hsoma : ∀ l : List ℕ, somaPesos l 2 = specSoma 0 l := by
    intro l
    simpa using somaPesos_eq_specSoma l 0
  have heq : gerarChaveAcesso e nf cNF
      = chaveBaseSpec e nf cNF ++ [specMod11CheckDigit (chaveBaseSpec e nf cNF)] := by
    simp only [gerarChaveAcesso, chaveBaseSpec, specMod11CheckDigit,
      hsoma, List.append_assoc]
  refine ⟨hbase, heq, ?_⟩
  rw [heq]
  simp [hbase]

/-- Witness for C2 at the fixed inputs of the spec test vector (region 35,
issue 2024-01, tax id 11222333000181, standard type 55, series 1, number 1,
control 12345678). -/
theorem nf_chave_acesso_estrutura_witness :
    (gerarChaveAcesso ⟨35, [1, 1, 2, 2, 2, 3, 3, 3, 0, 0, 0, 1, 8, 1]⟩
        ⟨.nfe, 1, 1, ⟨2024, 1, 15⟩, .autorizada, none⟩ 12345678).length = 44
    ∧ gerarChaveAcesso ⟨35, [1, 1, 2, 2, 2, 3, 3, 3, 0, 0, 0, 1, 8, 1]⟩
        ⟨.nfe, 1, 1, ⟨2024, 1, 15⟩, .autorizada, none⟩ 12345678
      = chaveBaseSpec ⟨35, [1, 1, 2, 2, 2, 3, 3, 3, 0, 0, 0, 1, 8, 1]⟩
          ⟨.nfe, 1, 1, ⟨2024, 1, 15⟩, .autorizada, none⟩ 12345678
        ++ [specMod11CheckDigit (chaveBaseSpec ⟨35, [1, 1, 2, 2, 2, 3, 3, 3, 0, 0, 0, 1, 8, 1]⟩
              ⟨.nfe, 1, 1, ⟨2024, 1, 15⟩, .autorizada, none⟩ 12345678)] := by
  have h := nf_chave_acesso_estrutura ⟨35, [1, 1, 2, 2, 2, 3, 3, 3, 0, 0, 0, 1, 8, 1]⟩
    ⟨.nfe, 1, 1, ⟨2024, 1, 15⟩, .autorizada, none⟩ 12345678
    (by decide) (by decide) (by decide) (by decide) (by norm_num) (by norm_num)
  exact ⟨h.2.2, h.2.1⟩

/-- `NotaFiscal.prototype.cancelar(justificativa)`: throws unless the
current status is in `['autorizada']`; then throws when the justification
is falsy or shorter than 15 characters (an empty string is falsy and also
shorter than 15, so both checks land in the same branch here); on success
stores status `cancelada` and the justification. -/
def cancelar (justificativa : String) (nf : NotaFiscal) : Except String NotaFiscal :=
  if ¬ (([StatusNota.autorizada]).contains nf.status) then
    .error "Nota fiscal não pode ser cancelada no status atual"
  else if justificativa.length < 15 then
    .error "Justificativa deve ter no mínimo 15 caracteres"
  else
    .ok { nf with status := .cancelada,
                  justificativa_cancelamento := some justificativa }

/-- C4 counterexample: on an already-cancelled document with an empty
justification (shorter than 15 characters), `cancelar` raises the
invalid-state error, not the validation error — the claim that a short
justification raises the validation error regardless of the current
status is false, because the status check runs first. -/
theorem nf_cancelar_cex :
    cancelar "" { tipo_documento := .nfe, serie := 1, numero := 1,
                  data_emissao := ⟨2024, 1, 15⟩, status := .cancelada,
                  justificativa_cancelamento := none }
      = .error "Nota fiscal não pode ser cancelada no status atual"
    ∧ "".length < 15
    ∧ cancelar "" { tipo_documento := .nfe, serie := 1, numero := 1,
                    data_emissao := ⟨2024, 1, 15⟩, status := .cancelada,
                    justificativa_cancelamento := none }
      ≠ .error "Justificativa deve ter no mínimo 15 caracteres" := by
  refine ⟨rfl, by decide, ?_⟩
  intro h
  exact absurd (Except.error.inj h) (by decide)

/-- C4 (amended): `cancelar` raises the invalid-state error whenever the
status is not `autorizada`, regardless of the justification; when the
status is `autorizada` it raises the validation error exactly for
justifications shorter than 15 characters; otherwise it succeeds, sets
status `cancelada` and stores the justification. -/
theorem nf_cancelar_comportamento (nf : NotaFiscal) (j : String) :
    (nf.status ≠ .autorizada →
      cancelar j nf = .error "Nota fiscal não pode ser cancelada no status atual")
    ∧ (nf.status = .autorizada → j.length < 15 →
      cancelar j nf = .error "Justificativa deve ter no mínimo 15 caracteres")
    ∧ (nf.status = .autorizada → 15 ≤ j.length →
      cancelar j nf =
        .ok { nf with status := .cancelada,
                      justificativa_cancelamento := some j }) := by
  rcases nf with ⟨tipo, serie, numero, de, st, jc⟩
  refine ⟨?_, ?_, ?_⟩
  · intro h
    cases st <;> first | rfl | exact absurd rfl h
  · intro hst hj
    cases hst
    simp only [cancelar]
    rw [if_neg (by simp), if_pos hj]
  · intro hst hj
    cases hst
    simp only [cancelar]
    rw [if_neg (by simp), if_neg (by omega)]

/-- Witness for C4: a successful cancellation of an authorized document,
and a second cancellation of the result raising the invalid-state
error. -/
theorem nf_cancelar_comportamento_witness :
    cancelar "cancelamento solicitado pelo cliente"
        { tipo_documento := .nfe, serie := 1, numero := 2,
          data_emissao := ⟨2024, 2, 1⟩, status := .autorizada,
          justificativa_cancelamento := none }
      = .ok { tipo_documento := .nfe, serie := 1, numero := 2,
              data_emissao := ⟨2024, 2, 1⟩, status := .cancelada,
              justificativa_cancelamento :=
                some "cancelamento solicitado pelo cliente" }
    ∧ cancelar "cancelamento solicitado pelo cliente"
        { tipo_documento := .nfe, serie := 1, numero := 2,
          data_emissao := ⟨2024, 2, 1⟩, status := .cancelada,
          justificativa_cancelamento :=
            some "cancelamento solicitado pelo cliente" }
      = .error "Nota fiscal não pode ser cancelada no status atual" := by
  constructor
  · exact (nf_cancelar_comportamento
      { tipo_documento := .nfe, serie := 1, numero := 2,
        data_emissao := ⟨2024, 2, 1⟩, status := .autorizada,
        justificativa_cancelamento := none }
      "cancelamento solicitado pelo cliente").2.2 rfl (by decide)
  · exact (nf_cancelar_comportamento
      { tipo_documento := .nfe, serie := 1, numero := 2,
        data_emissao := ⟨2024, 2, 1⟩, status := .cancelada,
        justificativa_cancelamento :=
          some "cancelamento solicitado pelo cliente" }
      "cancelamento solicitado pelo cliente").1 (by decide)

/-! ## Product stock (Produto)
Embedded from `Produto.prototype.atualizarEstoque` in the repository
(model file of `Produto`).  The method mutates the balance, then
recomputes the status, then saves; on insufficient stock it throws before
touching anything, so the record is returned unchanged next to the
error. -/

inductive StatusProduto where
  | ativo
  | inativo
  | em_promocao
  | esgotado
deriving DecidableEq, Repr

/-- The two movement directions the claims quantify over; any other
string makes the source throw `Tipo de operação inválido` before touching
the record, which is outside both claims. -/
inductive TipoMovimento where
  | entrada
  | saida
deriving DecidableEq, Repr

structure Produto where
  estoque_atual : ℚ
  status : StatusProduto
deriving DecidableEq, Repr

/-- `Produto.prototype.atualizarEstoque(quantidade, tipo)`: credits or
debits the balance (throwing `Estoque insuficiente` when an outbound
quantity exceeds the balance), then recomputes the status: `esgotado`
when the new balance is ≤ 0, else `ativo` when the previous status was
`esgotado`, else unchanged.  Returns the record next to
`{oldStock, newStock, difference}`. -/
def atualizarEstoque (quantidade : ℚ) (tipo : TipoMovimento) (p : Produto) :
    Produto × Except String (ℚ × ℚ × ℚ) :=
  let oldStock := p.estoque_atual
  let finish : ℚ → Produto × Except String (ℚ × ℚ × ℚ) := fun novo =>
    let status' :=
      if novo ≤ 0 then StatusProduto.esgotado
      else if p.status = .esgotado then StatusProduto.ativo
      else p.status
    ({ estoque_atual := novo, status := status' },
     .ok (oldStock, novo, novo - oldStock))
  match tipo with
  | .entrada => finish (p.estoque_atual + quantidade)
  | .saida =>
      if p.estoque_atual < quantidade then
        (p, .error "Estoque insuficiente")
      else
        finish (p.estoque_atual - quantidade)

/-- C6: an outbound movement larger than the current balance raises
`Estoque insuficiente` and leaves the record (balance and status) exactly
unchanged; an outbound movement of at most the balance succeeds and
debits exactly the requested quantity. -/
theorem produto_saida_sem_estoque (p : Produto) (q : ℚ) :
    (p.estoque_atual < q →
      atualizarEstoque q .saida p = (p, .error "Estoque insuficiente"))
    ∧ (q ≤ p.estoque_atual →
      (atualizarEstoque q .saida p).1.estoque_atual = p.estoque_atual - q
      ∧ exceptOk (atualizarEstoque q .saida p).2 = true) := by
  constructor
  · intro h
    simp only [atualizarEstoque]
    rw [if_pos h]
  · intro h
    simp only [atualizarEstoque]
    rw [if_neg (not_lt.2 h)]
    exact ⟨rfl, rfl⟩

/-- Witness for C6: with a balance of 5, an outbound movement of 10 is
rejected without change, and an outbound movement of 3 leaves 2. -/
theorem produto_saida_sem_estoque_witness :
    atualizarEstoque 10 .saida ⟨5, .ativo⟩
      = (⟨5, .ativo⟩, .error "Estoque insuficiente")
    ∧ (atualizarEstoque 3 .saida ⟨5, .ativo⟩).1.estoque_atual = 5 - 3 := by
  constructor
  · exact (produto_saida_sem_estoque ⟨5, .ativo⟩ 10).1 (by norm_num)
  · exact ((produto_saida_sem_estoque ⟨5, .ativo⟩ 3).2 (by norm_num)).1

/-- C7: after every successful `atualizarEstoque` call the invariant
`status = esgotado ↔ balance ≤ 0` holds, and when the resulting balance
is positive the new status is `ativo` if the previous status was
`esgotado` and the previous status otherwise (so `inativo` and
`em_promocao` are never changed by the automatic revert). -/
theorem produto_status_invariante (p : Produto) (q : ℚ) (t : TipoMovimento)
    (h : exceptOk (atualizarEstoque q t p).2 = true) :
    ((atualizarEstoque q t p).1.status = .esgotado
      ↔ (atualizarEstoque q t p).1.estoque_atual ≤ 0)
    ∧ (0 < (atualizarEstoque q t p).1.estoque_atual →
      (atualizarEstoque q t p).1.status
        = if p.status = .esgotado then StatusProduto.ativo else p.status) := by
  have main : ∀ novo : ℚ,
      ((if novo ≤ 0 then StatusProduto.esgotado
        else if p.status = .esgotado then StatusProduto.ativo
        else p.status) = .esgotado ↔ novo ≤ 0)
      ∧ (0 < novo →
        (if novo ≤ 0 then StatusProduto.esgotado
         else if p.status = .esgotado then StatusProduto.ativo
         else p.status)
          = if p.status = .esgotado then StatusProduto.ativo else p.status) := by
    intro novo
    by_cases hn : novo ≤ 0
    · rw [if_pos hn]
      exact ⟨by simp [hn], fun hpos => absurd hpos (by simpa using hn)⟩
    · rw [if_neg hn]
      constructor
      · by_cases hs : p.status = .esgotado
        · rw [if_pos hs]
          simp [hn]
        · rw [if_neg hs]
          simp [hn, hs]
      · intro _
        rfl
  cases t with
  | entrada =>
      simpa only [atualizarEstoque] using main (p.estoque_atual + q)
  | saida =>
      by_cases hq : p.estoque_atual < q
      · exfalso
        simp only [atualizarEstoque] at h
        rw [if_pos hq] at h
        exact absurd h (by simp [exceptOk])
      · simp only [atualizarEstoque]
        rw [if_neg hq]
        simpa using main (p.estoque_atual - q)

/-- Witness for C7: an inbound movement of 10 on an `esgotado` product
with zero balance reverts the status to `ativo`, and the invariant holds
on the result. -/
theorem produto_status_invariante_witness :
    (atualizarEstoque 10 .entrada ⟨0, .esgotado⟩).1.status = .ativo
    ∧ ((atualizarEstoque 10 .entrada ⟨0, .esgotado⟩).1.status = .esgotado
        ↔ (atualizarEstoque 10 .entrada ⟨0, .esgotado⟩).1.estoque_atual ≤ 0) := by
  have h := produto_status_invariante ⟨0, .esgotado⟩ 10 .entrada rfl
  refine ⟨?_, h.1⟩
  rw [h.2 (by show (0:ℚ) < 0 + 10; norm_num)]
  rfl

/-! ## Line items (ItemVenda)
Embedded from `ItemVenda.prototype.calcularTotais` in
`src/backend/src/models/ItemVenda.js`.  JavaScript division never throws:
dividing a nonzero number by zero yields ±Infinity and dividing zero by
zero yields NaN, so the value domain of the margin computation is the
rationals extended with those special values.  The nullable decimal
column `margem_lucro` is an `Option` of that domain, `none` standing for
SQL/JS null. -/

inductive JsNum where
  | num (q : ℚ)
  | posInf
  | negInf
  | nan
deriving DecidableEq, Repr

/-- JavaScript division `a / b` of finite numbers. -/
def jsDiv (a b : ℚ) : JsNum :=
  if b = 0 then
    if 0 < a then .posInf else if a < 0 then .negInf else .nan
  else .num (a / b)

/-- JavaScript multiplication of the division result by the literal 100. -/
def jsMul100 : JsNum → JsNum
  | .num q => .num (q * 100)
  | .posInf => .posInf
  | .negInf => .negInf
  | .nan => .nan

structure ItemVenda where
  quantidade : ℚ
  preco_unitario : ℚ
  desconto_percentual : ℚ
  desconto_valor : ℚ
  acrescimo_percentual : ℚ
  acrescimo_valor : ℚ
  custo_unitario : ℚ
  valor_total : ℚ
  margem_lucro : Option JsNum
deriving DecidableEq, Repr

/-- `ItemVenda.prototype.calcularTotais()`: percentage discount/surcharge
take precedence over the absolute values when the percentage is positive;
the line total is subtotal − discount + surcharge; the margin is
`((total − unitCost×quantity) / (unitCost×quantity)) × 100` with the
JavaScript division semantics above.  The mutated record carries the same
numbers the returned object reports. -/
def calcularTotais (it : ItemVenda) : ItemVenda :=
  let valorDesconto :=
    if 0 < it.desconto_percentual then
      it.preco_unitario * it.quantidade * it.desconto_percentual / 100
    else it.desconto_valor
  let valorAcrescimo :=
    if 0 < it.acrescimo_percentual then
      it.preco_unitario * it.quantidade * it.acrescimo_percentual / 100
    else it.acrescimo_valor
  let valor_total := it.preco_unitario * it.quantidade - valorDesconto + valorAcrescimo
  let custoTotal := it.custo_unitario * it.quantidade
  let margem := jsMul100 (jsDiv (valor_total - custoTotal) custoTotal)
  { it with valor_total := valor_total, margem_lucro := some margem }

/-- C5 counterexample: a line item with zero unit cost (cost basis 0) gets
margin `Infinity`, not null — `((10 − 0) / 0) × 100` is `Infinity` in
JavaScript and the source has no zero-cost guard. -/
theorem itemvenda_margem_cex :
    (calcularTotais ⟨1, 10, 0, 0, 0, 0, 0, 0, none⟩).margem_lucro = some .posInf
    ∧ (calcularTotais ⟨1, 10, 0, 0, 0, 0, 0, 0, none⟩).margem_lucro ≠ none := by
  constructor
  · show some (jsMul100 (jsDiv ((10 * 1 : ℚ) - 0 + 0 - 0 * 1) (0 * 1))) = some .posInf
    norm_num [jsDiv, jsMul100]
  · show some (jsMul100 (jsDiv ((10 * 1 : ℚ) - 0 + 0 - 0 * 1) (0 * 1))) ≠ none
    simp

lemma jsMul100_jsDiv_zero (a : ℚ) :
    jsMul100 (jsDiv a 0) =
      if 0 < a then JsNum.posInf else if a < 0 then JsNum.negInf else JsNum.nan := by
  by_cases h1 : 0 < a
  · simp [jsDiv, jsMul100, h1]
  · by_cases h2 : a < 0
    · simp [jsDiv, jsMul100, h1, h2]
    · simp [jsDiv, jsMul100, h1, h2]

/-- C5 (amended): `calcularTotais` never throws (it is a total function);
with nonzero cost basis the margin is the formula value; with zero cost
basis the margin is `Infinity`, `−Infinity` or `NaN` according to the sign
of the total — a number-domain special value, not null. -/
theorem itemvenda_margem (it : ItemVenda) :
    (it.custo_unitario * it.quantidade ≠ 0 →
      (calcularTotais it).margem_lucro
        = some (.num (((calcularTotais it).valor_total
            - it.custo_unitario * it.quantidade)
            / (it.custo_unitario * it.quantidade) * 100)))
    ∧ (it.custo_unitario * it.quantidade = 0 →
      (calcularTotais it).margem_lucro
        = some (if 0 < (calcularTotais it).valor_total then JsNum.posInf
                else if (calcularTotais it).valor_total < 0 then JsNum.negInf
                else JsNum.nan)
      ∧ (calcularTotais it).margem_lucro ≠ none) := by
  constructor
  · intro hc
    simp only [calcularTotais, jsDiv, jsMul100, if_neg hc]
  · intro hc
    constructor
    · show some (jsMul100 (jsDiv ((calcularTotais it).valor_total
          - it.custo_unitario * it.quantidade) (it.custo_unitario * it.quantidade))) = _
      rw [hc, sub_zero, jsMul100_jsDiv_zero]
    · simp [calcularTotais]

/-- Witness for C5: the zero-cost branch of the theorem applied to a
concrete item with positive total. -/
theorem itemvenda_margem_witness :
    (calcularTotais ⟨2, 7, 0, 0, 0, 0, 0, 0, none⟩).margem_lucro ≠ none := by
  exact ((itemvenda_margem ⟨2, 7, 0, 0, 0, 0, 0, 0, none⟩).2 (by norm_num)).2

/-! ## Receivables (ContaReceber)
Embedded from the `ContaReceber` instance methods
(`calcularValorRestante`, `registrarRecebimento`, `estaVencida`,
`calcularJurosMulta`, `gerarProximaRecorrencia`).  The `data_vencimento`
column is DATEONLY; `Data.toDays` converts a calendar date to the linear
day count used by the millisecond arithmetic of the source (both dates
sit at midnight, so the floored millisecond quotient is exactly the day
difference). -/

inductive StatusConta where
  | em_aberto
  | parcialmente_recebido
  | recebido
  | cancelado
  | vencido
  | protestado
deriving DecidableEq, Repr

inductive Periodicidade where
  | mensal
  | bimestral
  | trimestral
  | semestral
  | anual
deriving DecidableEq, Repr

structure ContaReceber where
  valor_original : ℚ
  valor_juros : ℚ
  valor_multa : ℚ
  valor_desconto : ℚ
  valor_recebido : ℚ
  valor_restante : ℚ
  status : StatusConta
  data_vencimento : Data
  data_recebimento : Option Data
  recorrente : Bool
  periodicidade : Option Periodicidade
deriving DecidableEq, Repr

/-- `ContaReceber.prototype.calcularValorRestante()`: recomputes and
stores the derived remaining amount
`original + juros + multa − desconto − recebido` and returns it. -/
def calcularValorRestante (c : ContaReceber) : ContaReceber × ℚ :=
  let valorTotal := c.valor_original + c.valor_juros + c.valor_multa - c.valor_desconto
  let valorRestante := valorTotal - c.valor_recebido
  ({ c with valor_restante := valorRestante }, valorRestante)

/-- `ContaReceber.prototype.registrarRecebimento(valorRecebido,
dataRecebimento)`: recomputes the remaining amount, throws on
overpayment (before any further mutation and before `save()`), otherwise
adds the amount to `valor_recebido`, stores the payment date, recomputes
the remaining amount and derives the status: `recebido` when the
remaining amount is exactly zero, else `parcialmente_recebido` when the
received total is positive, else unchanged. -/
def registrarRecebimento (valorRecebido : ℚ) (dataRecebimento : Data)
    (c : ContaReceber) : ContaReceber × Except String (ℚ × ℚ × StatusConta) :=
  let r := calcularValorRestante c
  let c1 := r.1
  let valorRestanteAtual := r.2
  if valorRestanteAtual < valorRecebido then
    (c1, .error "Valor do recebimento maior que o valor restante")
  else
    let c2 := { c1 with valor_recebido := c1.valor_recebido + valorRecebido,
                        data_recebimento := some dataRecebimento }
    let c3 := (calcularValorRestante c2).1
    let c4 :=
      if c3.valor_restante = 0 then { c3 with status := StatusConta.recebido }
      else if 0 < c3.valor_recebido then
        { c3 with status := StatusConta.parcialmente_recebido }
      else c3
    (c4, .ok (c4.valor_recebido, c4.valor_restante, c4.status))

/-- C3 counterexample: an accepted settlement of amount 0 on a fresh open
entry is strictly below the remaining amount 100, yet the status stays
`em_aberto` instead of becoming `parcialmente_recebido` (the source only
sets `parcialmente_recebido` when the received total is positive). -/
theorem conta_recebimento_cex :
    (0:ℚ) < (calcularValorRestante
        ⟨100, 0, 0, 0, 0, 100, .em_aberto, ⟨2024, 1, 15⟩, none, false, none⟩).2
    ∧ exceptOk (registrarRecebimento 0 ⟨2024, 2, 1⟩
        ⟨100, 0, 0, 0, 0, 100, .em_aberto, ⟨2024, 1, 15⟩, none, false, none⟩).2 = true
    ∧ (registrarRecebimento 0 ⟨2024, 2, 1⟩
        ⟨100, 0, 0, 0, 0, 100, .em_aberto, ⟨2024, 1, 15⟩, none, false, none⟩).1.status
      = .em_aberto
    ∧ (registrarRecebimento 0 ⟨2024, 2, 1⟩
        ⟨100, 0, 0, 0, 0, 100, .em_aberto, ⟨2024, 1, 15⟩, none, false, none⟩).1.status
      ≠ .parcialmente_recebido := by
  refine ⟨by norm_num [calcularValorRestante], ?_, ?_, ?_⟩ <;>
    (norm_num [registrarRecebimento, calcularValorRestante, exceptOk] <;> decide)

/-- C3 (amended): on an entry whose stored derived `valor_restante` is
consistent, `registrarRecebimento` raises the overpayment error and
leaves the entry unmodified when the amount exceeds the remaining value
computed immediately before applying; an amount equal to the remaining
value sets status `recebido` and leaves remaining exactly zero; an
accepted amount below the remaining value sets status
`parcialmente_recebido` provided the resulting received total is
positive (which any positive amount guarantees when the received total
was nonnegative). -/
theorem conta_recebimento_regras (c : ContaReceber) (v : ℚ) (d : Data)
    (hwf : c.valor_restante = (calcularValorRestante c).2) :
    ((calcularValorRestante c).2 < v →
      registrarRecebimento v d c
        = (c, .error "Valor do recebimento maior que o valor restante"))
    ∧ (v = (calcularValorRestante c).2 →
      (registrarRecebimento v d c).1.status = .recebido
      ∧ (registrarRecebimento v d c).1.valor_restante = 0
      ∧ (calcularValorRestante (registrarRecebimento v d c).1).2 = 0)
    ∧ (v < (calcularValorRestante c).2 → 0 < c.valor_recebido + v →
      (registrarRecebimento v d c).1.status = .parcialmente_recebido
      ∧ exceptOk (registrarRecebimento v d c).2 = true) := by
  rcases c with ⟨o, j, m, ds, rb, rst, st, dv, dr, rec, per⟩
  simp only [calcularValorRestante] at hwf
  refine ⟨?_, ?_, ?_⟩
  · intro h
    simp only [calcularValorRestante] at h
    simp only [registrarRecebimento, calcularValorRestante]
    rw [if_pos h]
    simp [hwf]
  · intro h
    simp only [calcularValorRestante] at h
    simp only [registrarRecebimento, calcularValorRestante]
    split_ifs with h1 h2 h3
    · exact absurd h1 (by rw [h]; exact lt_irrefl _)
    · refine ⟨rfl, by rw [h]; ring, by rw [h]; ring⟩
    · exact absurd (by rw [h]; ring : o + j + m - ds - (rb + v) = 0) h2
    · exact absurd (by rw [h]; ring : o + j + m - ds - (rb + v) = 0) h2
  · intro h hpos
    simp only [calcularValorRestante] at h
    simp only [registrarRecebimento, calcularValorRestante]
    split_ifs with h1 h2
    · exact absurd h1 (by linarith)
    · exact absurd h2 (by intro h0; linarith)
    · exact ⟨rfl, rfl⟩

/-- Witness for C3: on a fresh open entry of 100, settling 150 is
rejected without change, settling exactly 100 closes the entry with zero
remaining, and settling 40 marks it partially settled. -/
theorem conta_recebimento_regras_witness :
    registrarRecebimento 150 ⟨2024, 2, 1⟩
        ⟨100, 0, 0, 0, 0, 100, .em_aberto, ⟨2024, 1, 15⟩, none, false, none⟩
      = (⟨100, 0, 0, 0, 0, 100, .em_aberto, ⟨2024, 1, 15⟩, none, false, none⟩,
         .error "Valor do recebimento maior que o valor restante")
    ∧ (registrarRecebimento 100 ⟨2024, 2, 1⟩
        ⟨100, 0, 0, 0, 0, 100, .em_aberto, ⟨2024, 1, 15⟩, none, false, none⟩).1.status
      = .recebido
    ∧ (registrarRecebimento 100 ⟨2024, 2, 1⟩
        ⟨100, 0, 0, 0, 0, 100, .em_aberto, ⟨2024, 1, 15⟩, none, false, none⟩).1.valor_restante
      = 0
    ∧ (registrarRecebimento 40 ⟨2024, 2, 1⟩
        ⟨100, 0, 0, 0, 0, 100, .em_aberto, ⟨2024, 1, 15⟩, none, false, none⟩).1.status
      = .parcialmente_recebido := by
  refine ⟨?_, ?_, ?_, ?_⟩
  · exact (conta_recebimento_regras
      ⟨100, 0, 0, 0, 0, 100, .em_aberto, ⟨2024, 1, 15⟩, none, false, none⟩
      150 ⟨2024, 2, 1⟩ (by norm_num [calcularValorRestante])).1
      (by norm_num [calcularValorRestante])
  · exact ((conta_recebimento_regras
      ⟨100, 0, 0, 0, 0, 100, .em_aberto, ⟨2024, 1, 15⟩, none, false, none⟩
      100 ⟨2024, 2, 1⟩ (by norm_num [calcularValorRestante])).2.1
      (by norm_num [calcularValorRestante])).1
  · exact ((conta_recebimento_regras
      ⟨100, 0, 0, 0, 0, 100, .em_aberto, ⟨2024, 1, 15⟩, none, false, none⟩
      100 ⟨2024, 2, 1⟩ (by norm_num [calcularValorRestante])).2.1
      (by norm_num [calcularValorRestante])).2.1
  · exact ((conta_recebimento_regras
      ⟨100, 0, 0, 0, 0, 100, .em_aberto, ⟨2024, 1, 15⟩, none, false, none⟩
      40 ⟨2024, 2, 1⟩ (by norm_num [calcularValorRestante])).2.2
      (by norm_num [calcularValorRestante]) (by norm_num)).1

/-- C10: every accepted settlement — partial ones included — stores the
supplied payment date in `data_recebimento`, overwriting whatever date
was there before. -/
theorem conta_data_recebimento_sobrescrita (c : ContaReceber) (v : ℚ) (d : Data)
    (h : ¬ ((calcularValorRestante c).2 < v)) :
    (registrarRecebimento v d c).1.data_recebimento = some d
    ∧ exceptOk (registrarRecebimento v d c).2 = true := by
  simp only [registrarRecebimento]
  rw [if_neg h]
  split_ifs <;> exact ⟨rfl, rfl⟩

/-- Witness for C10: a partial settlement of 40 on an entry that already
carries an earlier payment date replaces that date, while the status
becomes `parcialmente_recebido` — a stored payment date therefore does
not imply the entry is fully settled. -/
theorem conta_data_recebimento_sobrescrita_witness :
    (registrarRecebimento 40 ⟨2024, 2, 1⟩
        ⟨100, 0, 0, 0, 0, 100, .em_aberto, ⟨2024, 1, 15⟩,
         some ⟨2024, 1, 1⟩, false, none⟩).1.data_recebimento
      = some ⟨2024, 2, 1⟩
    ∧ (registrarRecebimento 40 ⟨2024, 2, 1⟩
        ⟨100, 0, 0, 0, 0, 100, .em_aberto, ⟨2024, 1, 15⟩,
         some ⟨2024, 1, 1⟩, false, none⟩).1.status
      = .parcialmente_recebido := by
  constructor
  · exact (conta_data_recebimento_sobrescrita
      ⟨100, 0, 0, 0, 0, 100, .em_aberto, ⟨2024, 1, 15⟩, some ⟨2024, 1, 1⟩, false, none⟩
      40 ⟨2024, 2, 1⟩ (by norm_num [calcularValorRestante])).1
  · norm_num [registrarRecebimento, calcularValorRestante]

/-- Day number of a civil date (days since 1970-01-01, the standard
civil-from-days formula): the embedding of `Date.getTime() / 86400000`
for a date at midnight UTC.  Comparing or subtracting two dates in the
source is comparing or subtracting these numbers. -/
def Data.toDays (dt : Data) : Int :=
  let y : Int := if dt.m ≤ 2 then (dt.y : Int) - 1 else (dt.y : Int)
  let era : Int := (if 0 ≤ y then y else y - 399) / 400
  let yoe : Int := y - era * 400
  let mp : Int := ((dt.m : Int) + 9) % 12
  let doy : Int := (153 * mp + 2) / 5 + (dt.d : Int) - 1
  let doe : Int := yoe * 365 + yoe / 4 - yoe / 100 + doy
  era * 146097 + doe - 719468

/-- `ContaReceber.prototype.estaVencida()`: overdue means the due date is
before **today** (`hoje = new Date()`, the ambient current date, which the
method reads itself) and the status is not `recebido`. -/
def estaVencida (hoje : Int) (c : ContaReceber) : Bool :=
  decide (c.data_vencimento.toDays < hoje) && decide (c.status ≠ .recebido)

/-- `ContaReceber.prototype.calcularJurosMulta(dataBase)`: a no-op
returning zero charges unless `estaVencida()` holds for the ambient
current date `hoje`; when overdue, stores (not adds)
`multa = original × 0.02` and `juros = original × 0.00033 × diasAtraso`
with `diasAtraso = dataBase − dueDate` in days.  The exact decimal
constants 2/100 and 33/100000 embed the literals 0.02 and 0.00033. -/
def calcularJurosMulta (hoje dataBase : Int) (c : ContaReceber) :
    ContaReceber × ℚ × ℚ :=
  if estaVencida hoje c = false then (c, 0, 0)
  else
    let diasAtraso : Int := dataBase - c.data_vencimento.toDays
    let multa := c.valor_original * (2 / 100 : ℚ)
    let juros := c.valor_original * ((33 / 100000 : ℚ) * (diasAtraso : ℚ))
    ({ c with valor_multa := multa, valor_juros := juros }, juros, multa)

/-- C8 counterexample: an entry due 2024-01-10 is overdue with respect to
`asOf = dataBase =` 2024-01-20 in the sense of the claim (dueDate < asOf,
status not settled), yet when the ambient current date is 2024-01-05 the
call is a no-op: it returns zero charges and stores no penalty — the
overdue gate uses today, not `asOf`. -/
theorem conta_juros_multa_cex :
    Data.toDays ⟨2024, 1, 10⟩ < Data.toDays ⟨2024, 1, 20⟩
    ∧ (StatusConta.em_aberto ≠ StatusConta.recebido)
    ∧ calcularJurosMulta (Data.toDays ⟨2024, 1, 5⟩) (Data.toDays ⟨2024, 1, 20⟩)
        ⟨100, 0, 0, 0, 0, 100, .em_aberto, ⟨2024, 1, 10⟩, none, false, none⟩
      = (⟨100, 0, 0, 0, 0, 100, .em_aberto, ⟨2024, 1, 10⟩, none, false, none⟩, 0, 0)
    ∧ (calcularJurosMulta (Data.toDays ⟨2024, 1, 5⟩) (Data.toDays ⟨2024, 1, 20⟩)
        ⟨100, 0, 0, 0, 0, 100, .em_aberto, ⟨2024, 1, 10⟩, none, false, none⟩).1.valor_multa
      ≠ (100 : ℚ) * (2 / 100) := by
  refine ⟨by decide, by decide, ?_, ?_⟩
  · rw [calcularJurosMulta, if_pos (by decide)]
  · rw [calcularJurosMulta, if_pos (by decide)]
    norm_num

/-- C8 (amended): `calcularJurosMulta` is a no-op returning zero charges
unless the entry is overdue with respect to the ambient current date
(`dueDate < hoje` and status not `recebido`); when overdue it sets (does
not add to) `multa = original × 0.02` and
`juros = original × 0.00033 × (dataBase − dueDate)`; and a second call
with the same current date and `dataBase` returns exactly the same state
and the same charges as the first. -/
theorem conta_juros_multa_regras (hoje dataBase : Int) (c : ContaReceber) :
    (estaVencida hoje c = false → calcularJurosMulta hoje dataBase c = (c, 0, 0))
    ∧ (estaVencida hoje c = true →
      calcularJurosMulta hoje dataBase c =
        ({ c with
            valor_multa := c.valor_original * (2 / 100 : ℚ),
            valor_juros := c.valor_original
              * ((33 / 100000 : ℚ) * ((dataBase - c.data_vencimento.toDays : Int) : ℚ)) },
         c.valor_original
           * ((33 / 100000 : ℚ) * ((dataBase - c.data_vencimento.toDays : Int) : ℚ)),
         c.valor_original * (2 / 100 : ℚ)))
    ∧ calcularJurosMulta hoje dataBase (calcularJurosMulta hoje dataBase c).1
        = calcularJurosMulta hoje dataBase c := by
  have hupd : ∀ j m : ℚ,
      estaVencida hoje { c with valor_multa := m, valor_juros := j }
        = estaVencida hoje c := fun j m => rfl
  by_cases hv : estaVencida hoje c = true
  · have h1 : calcularJurosMulta hoje dataBase c =
        ({ c with
            valor_multa := c.valor_original * (2 / 100 : ℚ),
            valor_juros := c.valor_original
              * ((33 / 100000 : ℚ) * ((dataBase - c.data_vencimento.toDays : Int) : ℚ)) },
         c.valor_original
           * ((33 / 100000 : ℚ) * ((dataBase - c.data_vencimento.toDays : Int) : ℚ)),
         c.valor_original * (2 / 100 : ℚ)) := by
      rw [calcularJurosMulta, if_neg (by simp [hv])]
    refine ⟨fun h => absurd h (by simp [hv]), fun _ => h1, ?_⟩
    rw [h1]
    rw [calcularJurosMulta, if_neg (by rw [hupd]; simp [hv])]
  · have hv0 : estaVencida hoje c = false := by
      cases h : estaVencida hoje c
      · rfl
      · exact absurd h hv
    have h0 : calcularJurosMulta hoje dataBase c = (c, 0, 0) := by
      rw [calcularJurosMulta, if_pos hv0]
    refine ⟨fun _ => h0, fun h => absurd h hv, ?_⟩
    rw [h0]
    exact h0

/-- Witness for C8: an entry of 100 due 2024-01-10, with both the current
date and `asOf` at 2024-01-20 (ten days late), accrues a flat penalty of
2 and interest 100 × 0.00033 × 10 = 33/100. -/
theorem conta_juros_multa_regras_witness :
    calcularJurosMulta (Data.toDays ⟨2024, 1, 20⟩) (Data.toDays ⟨2024, 1, 20⟩)
        ⟨100, 0, 0, 0, 0, 100, .em_aberto, ⟨2024, 1, 10⟩, none, false, none⟩
      = (⟨100, 33 / 100, 2, 0, 0, 100, .em_aberto, ⟨2024, 1, 10⟩, none, false, none⟩,
         33 / 100, 2) := by
  have h := (conta_juros_multa_regras (Data.toDays ⟨2024, 1, 20⟩)
    (Data.toDays ⟨2024, 1, 20⟩)
    ⟨100, 0, 0, 0, 0, 100, .em_aberto, ⟨2024, 1, 10⟩, none, false, none⟩).2.1
    (by decide)
  rw [h]
  norm_num [show (Data.toDays ⟨2024, 1, 20⟩ : Int) - Data.toDays ⟨2024, 1, 10⟩ = 10
    from by decide]

/-- The `periodos` month-count table of `gerarProximaRecorrencia`. -/
def periodos : Periodicidade → Nat
  | .mensal => 1
  | .bimestral => 2
  | .trimestral => 3
  | .semestral => 6
  | .anual => 12

/-- Gregorian leap-year rule, as the JavaScript Date object applies it. -/
def bissexto (y : Nat) : Bool :=
  decide (y % 4 = 0) && (decide (y % 100 ≠ 0) || decide (y % 400 = 0))

def diasNoMes (y : Nat) : Nat → Nat
  | 2 => if bissexto y then 29 else 28
  | 4 => 30
  | 6 => 30
  | 9 => 30
  | 11 => 30
  | _ => 31

/-- The embedding of `d.setMonth(d.getMonth() + n)` for a date with day
value at most 31: the month index is advanced with year carry, and a day
beyond the length of the resulting month rolls into the following month
(at most once, since every month has at least 28 days). -/
def setMonthMais (dt : Data) (n : Nat) : Data :=
  let m0 := dt.m - 1 + n
  let y1 := dt.y + m0 / 12
  let m1 := m0 % 12 + 1
  if dt.d ≤ diasNoMes y1 m1 then ⟨y1, m1, dt.d⟩
  else if m1 = 12 then ⟨y1 + 1, 1, dt.d - diasNoMes y1 m1⟩
  else ⟨y1, m1 + 1, dt.d - diasNoMes y1 m1⟩

/-- `ContaReceber.prototype.gerarProximaRecorrencia()`: throws `Conta não
é recorrente` unless the recurrence flag and the periodicity are both
set; otherwise creates a clone of the entry with the due date advanced by
the periodicity month count, no payment date, zero received, remaining
equal to the original amount, and status `em_aberto`. -/
def gerarProximaRecorrencia (c : ContaReceber) : Except String ContaReceber :=
  match c.recorrente, c.periodicidade with
  | true, some p =>
      .ok { c with
            data_vencimento := setMonthMais c.data_vencimento (periodos p),
            data_recebimento := none,
            valor_recebido := 0,
            valor_restante := c.valor_original,
            status := .em_aberto }
  | _, _ => .error "Conta não é recorrente"

/-- C9: on a recurring entry (flag set with a periodicity),
`gerarProximaRecorrencia` yields a clone whose due date is the current
due date advanced by the periodicity month count (monthly 1, bimonthly 2,
quarterly 3, semiannual 6, annual 12), with zero received, remaining
equal to the original amount, status `em_aberto` and no payment date; on
an entry whose recurrence flag is not set it raises `Conta não é
recorrente`; and a monthly due date 2024-01-15 advances to
2024-02-15. -/
theorem conta_recorrencia_regras (c : ContaReceber) :
    (∀ p, c.recorrente = true → c.periodicidade = some p →
      gerarProximaRecorrencia c =
        .ok { c with
              data_vencimento := setMonthMais c.data_vencimento (periodos p),
              data_recebimento := none,
              valor_recebido := 0,
              valor_restante := c.valor_original,
              status := .em_aberto })
    ∧ (c.recorrente = false →
      gerarProximaRecorrencia c = .error "Conta não é recorrente")
    ∧ periodos .mensal = 1 ∧ periodos .bimestral = 2 ∧ periodos .trimestral = 3
    ∧ periodos .semestral = 6 ∧ periodos .anual = 12
    ∧ setMonthMais ⟨2024, 1, 15⟩ 1 = ⟨2024, 2, 15⟩ := by
  refine ⟨?_, ?_, rfl, rfl, rfl, rfl, rfl, by decide⟩
  · intro p h1 h2
    rcases c with ⟨o, j, m, ds, rb, rst, st, dv, dr, rec, per⟩
    cases h1
    cases h2
    rfl
  · intro h1
    rcases c with ⟨o, j, m, ds, rb, rst, st, dv, dr, rec, per⟩
    cases h1
    rfl

/-- Witness for C9: a monthly recurring entry due 2024-01-15 spawns an
open clone due 2024-02-15 with zero received and no payment date. -/
theorem conta_recorrencia_regras_witness :
    gerarProximaRecorrencia
        ⟨100, 0, 0, 0, 40, 60, .parcialmente_recebido, ⟨2024, 1, 15⟩,
         some ⟨2024, 1, 20⟩, true, some .mensal⟩
      = .ok ⟨100, 0, 0, 0, 0, 100, .em_aberto, ⟨2024, 2, 15⟩, none, true,
             some .mensal⟩ := by
  have h := (conta_recorrencia_regras
    ⟨100, 0, 0, 0, 40, 60, .parcialmente_recebido, ⟨2024, 1, 15⟩,
     some ⟨2024, 1, 20⟩, true, some .mensal⟩).1 .mensal rfl rfl
  rw [h]
  rfl

end Spec2Proof
